import Mathlib

/-!
Verification of the FinPal backend core against its natural-language
specification.

The Python sources are shallowly embedded:

* strings are `List Char` / `String`; `str.lower()` and friends are the
  corresponding ASCII character maps (every string any theorem evaluates is
  ASCII);
* the regular-expression searches of `LocalSMSParser` are hand-translated,
  pattern by pattern, into dedicated scanners with Python `re` semantics
  (leftmost match, alternation in source order, greedy / lazy quantifiers);
* Python / numpy floats are modelled as `ℚ`; the square root inside
  `np.std` is an explicit function parameter `sq : ℚ → ℚ` because no claim
  depends on its value; `datetime` values are integer UNIX seconds and
  `timedelta.days` is floor division by 86400;
* a raised exception is an `Except.error`; database reads are explicit
  list-valued parameters, database writes are returned values.
-/

namespace FinPal

/-! ### Character helpers (ASCII fragments of the Python `str` methods) -/

/-- Python regex `\s` (ASCII part: space, tab, newline, CR, VT, FF). -/
def isWs (c : Char) : Bool :=
  c = ' ' || c = '\t' || c = '\n' || c = '\r' || c.val = 11 || c.val = 12

/-- Python regex `\w` (ASCII part: letters, digits, underscore). -/
def isWordChar (c : Char) : Bool :=
  c.isAlpha || c.isDigit || c = '_'

/-- Case-insensitive character comparison (`re.IGNORECASE`, ASCII). -/
def ciEq (a b : Char) : Bool :=
  a.toLower = b.toLower

/-- `message.lower()` on a character list (ASCII). -/
def lowerList (cs : List Char) : List Char :=
  cs.map Char.toLower

/-- Does `s` start with `pat`, case-insensitively?  Returns the rest after
the prefix when it does. -/
def stripCI : List Char → List Char → Option (List Char)
  | [], s => some s
  | _ :: _, [] => none
  | p :: ps, c :: cs => if ciEq c p then stripCI ps cs else none

/-- Case-sensitive version of `stripCI`. -/
def stripCS : List Char → List Char → Option (List Char)
  | [], s => some s
  | _ :: _, [] => none
  | p :: ps, c :: cs => if c = p then stripCS ps cs else none

/-- `pat in s` for already-lowercased Python strings (substring test). -/
def hasSub (pat : List Char) : List Char → Bool
  | [] => (stripCS pat []).isSome
  | c :: cs => (stripCS pat (c :: cs)).isSome || hasSub pat cs

/-- `any(k in s for k in kws)`. -/
def hasAnySub (kws : List (List Char)) (s : List Char) : Bool :=
  kws.any (fun k => hasSub k s)

/-- `re.search` driver: try a matcher at every start position, leftmost
first (the empty suffix included, as `re.search` does). -/
def searchPos (f : List Char → Option α) : List Char → Option α
  | [] => f []
  | c :: cs =>
    match f (c :: cs) with
    | some r => some r
    | none => searchPos f cs

/-- Consume a maximal run of characters satisfying `p`; returns
(run, rest).  Used for greedy character classes whose follower set is
disjoint from the class, where the maximal split is the only viable one. -/
def takeRun (p : Char → Bool) : List Char → List Char × List Char
  | [] => ([], [])
  | c :: cs =>
    if p c then
      let (r, rest) := takeRun p cs
      (c :: r, rest)
    else ([], c :: cs)

/-- Numeric value of a digit string (empty → 0). -/
def ofDigits (ds : List Char) : ℚ :=
  ds.foldl (fun acc d => acc * 10 + ((d.toNat - '0'.toNat : ℕ) : ℚ)) 0

/-- `float(s)` on a comma-free numeric string: optional digits, optional
single dot, digits; `float("")` and `float(".")` raise (→ `none`). -/
def pyFloat (cs : List Char) : Option ℚ :=
  let intPart := (takeRun Char.isDigit cs).1
  let rest := (takeRun Char.isDigit cs).2
  match rest with
  | [] => if intPart = [] then none else some (ofDigits intPart)
  | '.' :: fr =>
    let fracPart := (takeRun Char.isDigit fr).1
    if (takeRun Char.isDigit fr).2 ≠ [] then none
    else if intPart = [] ∧ fracPart = [] then none
    else some (ofDigits intPart + ofDigits fracPart / (10 : ℚ) ^ fracPart.length)
  | _ => none

/-! ### `LocalSMSParser` pattern scanners (`backend/app/core/sms_parser.py`)

Each scanner embeds one entry of `LocalSMSParser.PATTERNS`.  Greedy
character classes whose follower set is disjoint from the class are taken
maximally without backtracking (the only viable split); the few genuinely
ambiguous spots are resolved exactly as the Python `re` engine does and
are commented in place. -/

namespace LocalSMSParser

open FinPal

/-- Character class `[0-9,]`. -/
def isNumCls (c : Char) : Bool := c.isDigit || c = ','

/-- Group `([0-9,]+(?:\.[0-9]{2})?)`: greedy run of `[0-9,]` (at least one),
then `.dd` when present (greedy option, no tail after it). -/
def numGroupAt (cs : List Char) : Option (List Char) :=
  let (run, rest) := takeRun isNumCls cs
  if run = [] then none
  else
    match rest with
    | '.' :: d1 :: d2 :: _ =>
      if d1.isDigit && d2.isDigit then some (run ++ ['.', d1, d2]) else some run
    | _ => some run

/-- `Rs\.?|INR|₹` (ignore-case).  The alternatives start with distinct
characters, so at most one can apply at a given position; after `Rs` the
optional `.` is consumed greedily — if the rest then fails, it also fails
without the dot (a `.` is neither whitespace nor `[0-9,]`). -/
def amtCurrency (cs : List Char) : Option (List Char) :=
  match stripCI "rs".toList cs with
  | some rest =>
    match rest with
    | '.' :: r => some r
    | r => some r
  | none =>
    match stripCI "inr".toList cs with
    | some rest => some rest
    | none => stripCS ['₹'] cs

/-- Amount pattern 1 at one position:
`(?:Rs\.?|INR|₹)\s*([0-9,]+(?:\.[0-9]{2})?)`. -/
def amt1At (cs : List Char) : Option (List Char) :=
  (amtCurrency cs).bind fun r => numGroupAt (takeRun isWs r).2

/-- The verbs of amount pattern 2 (distinct first letters: no alternation
backtracking). -/
def amtVerbs : List (List Char) :=
  ["debited", "credited", "spent", "paid", "received"].map String.toList

/-- First alternative (source order) that is a case-insensitive prefix. -/
def stripAnyCI : List (List Char) → List Char → Option (List Char)
  | [], _ => none
  | p :: ps, cs =>
    match stripCI p cs with
    | some r => some r
    | none => stripAnyCI ps cs

/-- Amount pattern 2 at one position:
`(?:debited|credited|spent|paid|received)\s+(?:Rs\.?|INR|₹)?\s*([0-9,]+(?:\.[0-9]{2})?)`.
If the optional currency matches but no number follows it, the
no-currency parse would restart at the currency's first character
(`r`/`i`/`₹`, not in `[0-9,]`) and fail as well, so the option needs no
backtracking. -/
def amt2At (cs : List Char) : Option (List Char) :=
  (stripAnyCI amtVerbs cs).bind fun r =>
    let (sp, r2) := takeRun isWs r
    if sp = [] then none
    else
      match amtCurrency r2 with
      | some r3 => numGroupAt (takeRun isWs r3).2
      | none => numGroupAt r2

/-- Second amount pattern searched over the whole message, then
`float(group.replace(',',''))`; a `float` failure was already handled for
pattern 1, and here ends the loop (→ `None`). -/
def amtPat2 (cs : List Char) : Option ℚ :=
  match searchPos amt2At cs with
  | some grp => pyFloat (grp.filter (· ≠ ','))
  | none => none

/-- `LocalSMSParser._extract_amount`: try pattern 1, and on a missing match
or a `float` `ValueError` (caught, `continue`) fall through to pattern 2. -/
def extractAmount (cs : List Char) : Option ℚ :=
  match searchPos amt1At cs with
  | some grp =>
    match pyFloat (grp.filter (· ≠ ',')) with
    | some q => some q
    | none => amtPat2 cs
  | none => amtPat2 cs

/-- Transaction direction (`schemas/sms.py` `TransactionType`; the string
values are `"debit"`, `"credit"`, `"Unknown"` — all non-empty, hence all
truthy in Python). -/
inductive TransactionType
  | debit
  | credit
  | unknown
deriving DecidableEq, Repr

/-- `PATTERNS['transaction_type']['debit']` — a pure alternation of
literals, so `re.search` succeeds iff some literal is a substring. -/
def debitKws : List (List Char) :=
  ["debited", "spent", "paid", "withdrawn", "purchase", "debit"].map String.toList

/-- `PATTERNS['transaction_type']['credit']`. -/
def creditKws : List (List Char) :=
  ["credited", "received", "refund", "deposit", "credit"].map String.toList

/-- `LocalSMSParser._extract_transaction_type` on the already-lowercased
message: debit wins over credit; with no match it returns
`TransactionType.UNKNOWN` (not `None`). -/
def extractTransactionType (ml : List Char) : TransactionType :=
  if hasAnySub debitKws ml then .debit
  else if hasAnySub creditKws ml then .credit
  else .unknown

/-- `a\/c|account|card` (ignore-case, source order; `a/c` and `account`
diverge at their second pattern character, and a successful-but-doomed
shorter alternative would leave the rest starting on the same letters the
longer one consumes, so ordered first-match is exact here). -/
def accKws : List (List Char) :=
  ["a/c", "account", "card"].map String.toList

/-- Exactly four digits, captured. -/
def fourDigitsAt : List Char → Option (List Char)
  | a :: b :: c :: d :: _ =>
    if a.isDigit && b.isDigit && c.isDigit && d.isDigit then some [a, b, c, d]
    else none
  | _ => none

/-- `(?:x{2,4})?(\d{4})`: greedy x-count 4, 3, 2, then the option skipped.
Taking fewer than the full run of `x`s leaves an `x` where a digit is
required, so only the capped full run (or, with no run, the skipped
option) can succeed. -/
def accXsDigits (cs : List Char) : Option (List Char) :=
  let xrun := (takeRun (fun c => c = 'x' || c = 'X') cs).1.length
  if 2 ≤ xrun then fourDigitsAt (cs.drop (min xrun 4))
  else if xrun = 1 then none
  else fourDigitsAt cs

/-- Account pattern at one position:
`(?:a\/c|account|card)[\s\*]+(?:ending\s+)?(?:x{2,4})?(\d{4})`.
`[\s\*]+` is taken maximally (its follower set `e`/`x`/digit is disjoint);
a matched-but-doomed `ending\s+` falls back to the skipped option. -/
def accountAt (cs : List Char) : Option (List Char) :=
  (stripAnyCI accKws cs).bind fun r =>
    let (run, r2) := takeRun (fun c => isWs c || c = '*') r
    if run = [] then none
    else
      match stripCI "ending".toList r2 with
      | some r3 =>
        let (sp, r4) := takeRun isWs r3
        if sp ≠ [] then
          match accXsDigits r4 with
          | some g => some g
          | none => accXsDigits r2
        else accXsDigits r2
      | none => accXsDigits r2

/-- `LocalSMSParser._extract_account`. -/
def extractAccount (cs : List Char) : Option String :=
  (searchPos accountAt cs).map String.mk

/-- `balance|bal|avbl|available` in source order (see `accKws` for why
ordered first-match needs no cross-alternative backtracking here). -/
def balKws : List (List Char) :=
  ["balance", "bal", "avbl", "available"].map String.toList

/-- After a balance keyword: `[\s:]*(?:Rs\.?|INR|₹)?\s*` then the number
group; `[\s:]*` is maximal (follower `r`/`i`/`₹`/digit disjoint from the
class), and the optional currency needs no backtracking as in `amt2At`. -/
def balAfterKw (r : List Char) : Option (List Char) :=
  let r2 := (takeRun (fun c => isWs c || c = ':') r).2
  match amtCurrency r2 with
  | some r3 => numGroupAt (takeRun isWs r3).2
  | none => numGroupAt r2

/-- Balance pattern at one position:
`(?:balance|bal|avbl|available)[\s:]*(?:Rs\.?|INR|₹)?\s*([0-9,]+(?:\.[0-9]{2})?)`. -/
def balanceAt (cs : List Char) : Option (List Char) :=
  (stripAnyCI balKws cs).bind balAfterKw

/-- `LocalSMSParser._extract_balance` (a `float` `ValueError` is caught and
yields `None`). -/
def extractBalance (cs : List Char) : Option ℚ :=
  match searchPos balanceAt cs with
  | some grp => pyFloat (grp.filter (· ≠ ','))
  | none => none

/-! #### Merchant extraction (`_extract_merchant`) -/

/-- Character class `[A-Z\s&\-]` under `re.IGNORECASE`. -/
def merchCls (c : Char) : Bool := c.isAlpha || isWs c || c = '&' || c = '-'

/-- Lazy `[A-Z\s&\-]+?` (at least one character) before a tail: the
shortest non-empty class run after which `tail` holds. -/
def merchLazy (tail : List Char → Bool) : List Char → Option (List Char)
  | [] => none
  | c :: rest =>
    if merchCls c then
      if tail rest then some [c]
      else
        match merchLazy tail rest with
        | some grp => some (c :: grp)
        | none => none
    else none

/-- Group `([A-Z][A-Z\s&\-]+?)` followed (peeked, not consumed) by `tail`. -/
def merchGroupAt (tail : List Char → Bool) : List Char → Option (List Char)
  | [] => none
  | c :: rest => if c.isAlpha then (merchLazy tail rest).map (c :: ·) else none

/-- Tail `\s+on\s+\d`. -/
def tailOnDigit (cs : List Char) : Bool :=
  let (sp, r) := takeRun isWs cs
  sp ≠ [] &&
    match stripCI "on".toList r with
    | some r1 =>
      let (sp2, r2) := takeRun isWs r1
      sp2 ≠ [] && (match r2 with | d :: _ => d.isDigit | [] => false)
    | none => false

/-- Tail `(?:\s+on\s+\d|\.|,|$)` of merchant pattern 2. -/
def tailP2 (cs : List Char) : Bool :=
  tailOnDigit cs ||
    match cs with
    | [] => true
    | '.' :: _ => true
    | ',' :: _ => true
    | _ => false

/-- Tail `(?:\s+using)` of merchant pattern 4. -/
def tailUsing (cs : List Char) : Bool :=
  let (sp, r) := takeRun isWs cs
  sp ≠ [] && (stripCI "using".toList r).isSome

/-- Merchant pattern 1 at a position:
`(?:spent|paid)\s+on\s+([A-Z][A-Z\s&\-]+?)(?:\s+on\s+\d)`. -/
def merchPat1At (cs : List Char) : Option (List Char) :=
  (stripAnyCI (["spent", "paid"].map String.toList) cs).bind fun r =>
    let (sp, r1) := takeRun isWs r
    if sp = [] then none
    else
      (stripCI "on".toList r1).bind fun r2 =>
        let (sp2, r3) := takeRun isWs r2
        if sp2 = [] then none else merchGroupAt tailOnDigit r3

/-- Merchant pattern 2 at a position:
`(?:at|to)\s+([A-Z][A-Z\s&\-]+?)(?:\s+on\s+\d|\.|,|$)`. -/
def merchPat2At (cs : List Char) : Option (List Char) :=
  (stripAnyCI (["at", "to"].map String.toList) cs).bind fun r =>
    let (sp, r1) := takeRun isWs r
    if sp = [] then none else merchGroupAt tailP2 r1

/-- Merchant pattern 3 at a position:
`for\s+([A-Z][A-Z\s&\-]+?)(?:\s+on\s+\d)`. -/
def merchPat3At (cs : List Char) : Option (List Char) :=
  (stripCI "for".toList cs).bind fun r =>
    let (sp, r1) := takeRun isWs r
    if sp = [] then none else merchGroupAt tailOnDigit r1

/-- Merchant pattern 4 at a position:
`on\s+([A-Z][A-Z\s&\-]+?)(?:\s+using)`. -/
def merchPat4At (cs : List Char) : Option (List Char) :=
  (stripCI "on".toList cs).bind fun r =>
    let (sp, r1) := takeRun isWs r
    if sp = [] then none else merchGroupAt tailUsing r1

/-- Python `str.strip()` (ASCII whitespace). -/
def pyStrip (cs : List Char) : List Char :=
  ((cs.dropWhile isWs).reverse.dropWhile isWs).reverse

/-- Cleanup sub 1 tail after the day digits: a dash-or-slash separator,
`\w{3}`, another dash-or-slash separator, then `\d{2,4}.*` (`.*` always
matches, so at least two year digits suffice). -/
def sub1TailFrom : List Char → Bool
  | s1 :: a :: b :: c :: s2 :: d1 :: d2 :: _ =>
    (s1 = '-' || s1 = '/') && isWordChar a && isWordChar b && isWordChar c &&
      (s2 = '-' || s2 = '/') && d1.isDigit && d2.isDigit
  | _ => false

/-- Does cleanup sub 1 — `\s*on\s+\d{1,2}`, dash-or-slash, `\w{3}`,
dash-or-slash, `\d{2,4}.*` (ignore-case) — match at this position?
`\d{1,2}` prefers two digits. -/
def sub1At (cs : List Char) : Bool :=
  let r := (takeRun isWs cs).2
  match stripCI "on".toList r with
  | none => false
  | some r1 =>
    let (sp, r2) := takeRun isWs r1
    sp ≠ [] &&
      match r2 with
      | d1 :: d2 :: rest =>
        d1.isDigit && ((d2.isDigit && sub1TailFrom rest) || sub1TailFrom (d2 :: rest))
      | _ => false

/-- The first cleanup `re.sub` (date removal, replacing with the empty
string): its `.*` swallows the remainder, so it truncates at the
leftmost match of `sub1At`. -/
def cleanup1 : List Char → List Char
  | [] => []
  | c :: cs => if sub1At (c :: cs) then [] else c :: cleanup1 cs

/-- Four digits, returning the remainder after them. -/
def digits4Rest : List Char → Option (List Char)
  | a :: b :: c :: d :: rest =>
    if a.isDigit && b.isDigit && c.isDigit && d.isDigit then some rest else none
  | _ => none

/-- One match of cleanup sub 2, `card\s+[xX]{2,4}\d{4}\s+for\s+`
(ignore-case), at this position; returns the remainder after the match. -/
def sub2At (cs : List Char) : Option (List Char) :=
  (stripCI "card".toList cs).bind fun r =>
    let (sp, r1) := takeRun isWs r
    if sp = [] then none
    else
      let (xs, _) := takeRun (fun c => c = 'x' || c = 'X') r1
      if xs.length < 2 then none
      else
        (digits4Rest (r1.drop (min xs.length 4))).bind fun r3 =>
          let (sp2, r4) := takeRun isWs r3
          if sp2 = [] then none
          else
            (stripCI "for".toList r4).bind fun r5 =>
              let (sp3, r6) := takeRun isWs r5
              if sp3 = [] then none else some r6

/-- `re.sub` driver for sub 2: replace every non-overlapping match, left to
right.  Fuel is the list length; every match consumes at least one
character, so the fuel never runs out. -/
def cleanup2Go : ℕ → List Char → List Char
  | 0, cs => cs
  | _ + 1, [] => []
  | f + 1, c :: cs =>
    match sub2At (c :: cs) with
    | some rest => cleanup2Go f rest
    | none => c :: cleanup2Go f cs

/-- Cleanup sub 2 over the whole string. -/
def cleanup2 (cs : List Char) : List Char := cleanup2Go cs.length cs

/-- `re.sub(r'\s+', ' ', ...)`: collapse whitespace runs. -/
def collapseWs : List Char → List Char
  | [] => []
  | [c] => [if isWs c then ' ' else c]
  | c :: d :: cs =>
    if isWs c then
      if isWs d then collapseWs (d :: cs) else ' ' :: collapseWs (d :: cs)
    else c :: collapseWs (d :: cs)

/-- The cleanup chain of `_extract_merchant` (strip, date sub, card sub,
whitespace collapse, strip). -/
def merchCleanup (g : List Char) : List Char :=
  pyStrip (collapseWs (cleanup2 (cleanup1 (pyStrip g))))

/-- `len(merchant) > 2 and any(c.isalpha() for c in merchant)`. -/
def merchValid (m : List Char) : Bool := 2 < m.length && m.any Char.isAlpha

/-- The pattern loop of `_extract_merchant`: first pattern whose match
survives cleanup and validation wins; an invalid cleaned match falls
through to the next pattern. -/
def merchTry (pats : List (List Char → Option (List Char))) (cs : List Char) : Option String :=
  match pats with
  | [] => none
  | p :: ps =>
    match searchPos p cs with
    | some g =>
      let m := merchCleanup g
      if merchValid m then some (String.mk (m.map Char.toUpper)) else merchTry ps cs
    | none => merchTry ps cs

/-- `LocalSMSParser._extract_merchant`. -/
def extractMerchant (cs : List Char) : Option String :=
  merchTry [merchPat1At, merchPat2At, merchPat3At, merchPat4At] cs

/-- `LocalSMSParser._catogorize_merchant` (the method name as defined in
the source — note the transposition; `parse` invokes the spelling
`_categorize_merchant`, which does not exist).  First matching category in
dict order wins. -/
def catogorizeMerchant (merchant : String) : String :=
  let ml := lowerList merchant.toList
  let categories : List (String × List String) :=
    [ ("food", ["restaurant", "swiggy instamart", "cafe", "swiggy", "zomato", "food",
        "pizza", "burger", "mcdonald", "kfc", "dominos", "subway", "starbucks"]),
      ("transport", ["uber", "ola", "rapido", "metro", "petrol", "fuel", "gas",
        "parking", "toll", "cab", "taxi", "auto"]),
      ("shopping", ["amazon", "flipkart", "myntra", "mall", "store", "shop"]),
      ("utilities", ["electricity", "water", "gas", "mobile", "recharge", "airtel",
        "jio", "vi", "vodaphone", "broadband"]),
      ("entertainment", ["netflix", "prime", "hotstar", "movie", "theatre", "spotify",
        "youtube", "pvr", "inox"]),
      ("groceries", ["bigbasket", "grofers", "blinkit", "dmart", "reliance", "fresh",
        "supermarket", "instamart"]),
      ("health", ["pharma", "pharmacy", "1mg", "pharmeasy", "medicine", "hospital",
        "clinic", "apollo", "medplus"]) ]
  match categories.find? (fun ckw => hasAnySub (ckw.2.map String.toList) ml) with
  | some ckw => ckw.1
  | none => "other"

/-! #### Credit-source extraction (`_extract_credit_source`) -/

/-- Python `str.title()` (ASCII): uppercase a letter after a non-letter,
lowercase the others. -/
def pyTitleGo : Bool → List Char → List Char
  | _, [] => []
  | prevAlpha, c :: cs =>
    (if c.isAlpha then (if prevAlpha then c.toLower else c.toUpper) else c)
      :: pyTitleGo c.isAlpha cs

/-- Python `str.title()`. -/
def pyTitle (cs : List Char) : List Char := pyTitleGo false cs

/-- Character class `[A-Za-z\s]`. -/
def csCls (c : Char) : Bool := c.isAlpha || isWs c

/-- Greedy `cls`-run group (at least one character) before `tail`: the
longest non-empty class run after which `tail` holds. -/
def greedyGrp (cls : Char → Bool) (tail : List Char → Bool) : List Char → Option (List Char)
  | [] => none
  | c :: rest =>
    if cls c then
      match greedyGrp cls tail rest with
      | some g => some (c :: g)
      | none => if tail rest then some [c] else none
    else none

/-- Tail `\s+for\s+\w+\s+\d{4}` of credit pattern 1 (each greedy run has a
disjoint follower). -/
def cs1Tail (cs : List Char) : Bool :=
  let (sp, r) := takeRun isWs cs
  sp ≠ [] &&
    match stripCI "for".toList r with
    | some r1 =>
      let (sp2, r2) := takeRun isWs r1
      sp2 ≠ [] &&
        (let (w, r3) := takeRun isWordChar r2
         w ≠ [] &&
           (let (sp3, r4) := takeRun isWs r3
            sp3 ≠ [] && (fourDigitsAt r4).isSome))
    | none => false

/-- `\s*([A-Za-z\s]+)` of credit pattern 1 — the class contains `\s`, so
the star may hand characters back to the group: prefer the longer star,
and on failure let the group start at the current whitespace. -/
def cs1Star (cs : List Char) : Option (List Char) :=
  match cs with
  | c :: rest =>
    if isWs c then
      match cs1Star rest with
      | some g => some g
      | none => greedyGrp csCls cs1Tail (c :: rest)
    else greedyGrp csCls cs1Tail (c :: rest)
  | [] => none

/-- Credit pattern 1 at a position:
`-\s*([A-Za-z\s]+)\s+for\s+\w+\s+\d{4}` (ignore-case). -/
def cs1At : List Char → Option (List Char)
  | '-' :: r => cs1Star r
  | _ => none

/-- `([A-Za-z\s]+)` with nothing after it: the maximal class run. -/
def cs2Grp (cs : List Char) : Option (List Char) :=
  let (run, _) := takeRun csCls cs
  if run = [] then none else some run

/-- `\s*([A-Za-z\s]+)` (nothing after the group): prefer the longer star;
on failure the whitespace itself can start the group. -/
def cs2AfterDash (cs : List Char) : Option (List Char) :=
  match cs with
  | c :: rest =>
    if isWs c then
      match cs2AfterDash rest with
      | some g => some g
      | none => cs2Grp (c :: rest)
    else cs2Grp (c :: rest)
  | [] => none

/-- `\s*-?\s*([A-Za-z\s]+)` of credit pattern 2, with the backtracking the
overlapping star / class force. -/
def cs2From (cs : List Char) : Option (List Char) :=
  match cs with
  | c :: rest =>
    if isWs c then
      match cs2From rest with
      | some g => some g
      | none => cs2Grp (c :: rest)
    else if c = '-' then
      match cs2AfterDash rest with
      | some g => some g
      | none => cs2Grp (c :: rest)
    else cs2Grp (c :: rest)
  | [] => none

/-- Credit pattern 2 at a position: `credited\s*-?\s*([A-Za-z\s]+)`
(ignore-case). -/
def cs2At (cs : List Char) : Option (List Char) :=
  (stripCI "credited".toList cs).bind cs2From

/-- Does `\s+(for|from|to|on)\s` (ignore-case) match at this position?
(`for`/`from` diverge at their second character, `to`/`on` at their first,
so ordered first-match is exact.) -/
def cs2TrimAt (cs : List Char) : Bool :=
  let (sp, r) := takeRun isWs cs
  sp ≠ [] &&
    match stripAnyCI (["for", "from", "to", "on"].map String.toList) r with
    | some r1 => match r1 with | c :: _ => isWs c | [] => false
    | none => false

/-- `re.sub(r'\s+(for|from|to|on)\s.*', '', source)`: truncate at the
leftmost match. -/
def creditTrim : List Char → List Char
  | [] => []
  | c :: rest => if cs2TrimAt (c :: rest) then [] else c :: creditTrim rest

/-- The alternation `(refund|cashback|bonus)` with its capture. -/
def cs3Kw (cs : List Char) : Option (List Char × List Char) :=
  match stripCI "refund".toList cs with
  | some r => some ("refund".toList, r)
  | none =>
    match stripCI "cashback".toList cs with
    | some r => some ("cashback".toList, r)
    | none =>
      match stripCI "bonus".toList cs with
      | some r => some ("bonus".toList, r)
      | none => none

/-- Credit pattern 3 at a position:
`(refund|cashback|bonus)\s+from\s+([A-Za-z\s]+)` (ignore-case; distinct
first letters; `from`'s trailing `\s+` hands characters back to the group
exactly as in `cs2AfterDash`).  Returns (group 1, group 2). -/
def cs3At (cs : List Char) : Option (List Char × List Char) :=
  match cs3Kw cs with
  | some (kw, r) =>
    let (sp, r1) := takeRun isWs r
    if sp = [] then none
    else
      match stripCI "from".toList r1 with
      | some r2 =>
        match r2 with
        | c :: rest =>
          if isWs c then (cs2AfterDash rest).map (fun g => (kw, g)) else none
        | [] => none
      | none => none
  | none => none

/-- The ordered income-keyword table of `_extract_credit_source`
(pattern 4). -/
def incomeKeywords : List (String × String) :=
  [ ("salary", "Salary"), ("bonus", "Bonus"), ("incentive", "Incentive"),
    ("reimbursement", "Reimbursement"), ("refund", "Refund"),
    ("cashback", "Cashback"), ("interest", "Interest"),
    ("dividend", "Dividend"), ("transfer", "Transfer") ]

/-- `LocalSMSParser._extract_credit_source`.  Note pattern 1's capture is
title-cased in the Python via `.group(1).strip().title()`; pattern 3
rebuilds `"{g1.title()} from {g2.strip()}"`. -/
def extractCreditSource (cs : List Char) : Option String :=
  match searchPos cs1At cs with
  | some g => some (String.mk (pyTitle (pyStrip g)))
  | none =>
    match searchPos cs2At cs with
    | some g => some (String.mk (creditTrim (pyTitle (pyStrip g))))
    | none =>
      match searchPos cs3At cs with
      | some (g1, g2) => some (String.mk (pyTitle g1 ++ " from ".toList ++ pyStrip g2))
      | none =>
        let ml := lowerList cs
        ((incomeKeywords.find? (fun kv => hasSub kv.1.toList ml)).map (·.2))

/-- `LocalSMSParser._categorize_credit`. -/
def categorizeCredit (cs : List Char) : String :=
  let ml := lowerList cs
  if hasAnySub (["salary", "wages", "payroll"].map String.toList) ml then "income"
  else if hasAnySub (["refund", "return"].map String.toList) ml then "refund"
  else if hasAnySub (["cashback", "reward", "bonus"].map String.toList) ml then "cashback"
  else if hasAnySub (["interest", "dividend"].map String.toList) ml then "investment"
  else if hasAnySub (["transfer", "upi", "neft", "imps"].map String.toList) ml then "transfer"
  else "income"

/-! #### Transaction-date extraction (`_extract_trans_date`) -/

/-- The separator class of the date pattern (a literal space, dash or
slash). -/
def dateSep (c : Char) : Bool := c = '-' || c = '/' || c = ' '

/-- Exactly `n` characters satisfying `p`, with the remainder. -/
def takeExact (p : Char → Bool) : ℕ → List Char → Option (List Char × List Char)
  | 0, cs => some ([], cs)
  | _ + 1, [] => none
  | n + 1, c :: cs =>
    if p c then (takeExact p n cs).map (fun tr => (c :: tr.1, tr.2)) else none

/-- Greedy counted repetition: try the counts in `ns` order (largest
first), continuing with `k`; returns taken-characters ++ continuation. -/
def tryTakeThen (p : Char → Bool) (ns : List ℕ) (k : List Char → Option (List Char))
    (cs : List Char) : Option (List Char) :=
  match ns with
  | [] => none
  | n :: rest =>
    match takeExact p n cs with
    | some tr =>
      match k tr.2 with
      | some tail => some (tr.1 ++ tail)
      | none => tryTakeThen p rest k cs
    | none => tryTakeThen p rest k cs

/-- `\d{2,4}` at the end of the date pattern (greedy, nothing after). -/
def dateYearK (cs : List Char) : Option (List Char) :=
  tryTakeThen Char.isDigit [4, 3, 2] (fun _ => some []) cs

/-- A separator then the year digits. -/
def dateSepYearK : List Char → Option (List Char)
  | s :: r => if dateSep s then (dateYearK r).map (s :: ·) else none
  | [] => none

/-- `(?:\d{1,2}|[A-Za-z]{3,9})` (digits preferred) then separator + year. -/
def dateMidK (cs : List Char) : Option (List Char) :=
  match tryTakeThen Char.isDigit [2, 1] dateSepYearK cs with
  | some r => some r
  | none => tryTakeThen Char.isAlpha [9, 8, 7, 6, 5, 4, 3] dateSepYearK cs

/-- The date pattern at one position: `\d{1,2}`, a dash/slash/space
separator, `(?:\d{1,2}|[A-Za-z]{3,9})`, another separator, `\d{2,4}` —
the whole span captured. -/
def dateAt (cs : List Char) : Option (List Char) :=
  tryTakeThen Char.isDigit [2, 1]
    (fun r =>
      match r with
      | s :: r2 => if dateSep s then (dateMidK r2).map (s :: ·) else none
      | [] => none)
    cs

/-- `date_str.replace("  ", " ")` (single left-to-right pass over
non-overlapping occurrences). -/
def replDouble : List Char → List Char
  | ' ' :: ' ' :: rest => ' ' :: replDouble rest
  | c :: rest => c :: replDouble rest
  | [] => []

/-- The normalization chain: `/`→`-`, `"  "`→`" "`, `" "`→`-`. -/
def normalizeDate (g : List Char) : List Char :=
  (replDouble (g.map (fun c => if c = '/' then '-' else c))).map
    (fun c => if c = ' ' then '-' else c)

/-- A parsed `datetime` date (midnight time part). -/
structure PyDate where
  year : ℤ
  month : ℕ
  day : ℕ
deriving DecidableEq, Repr

/-- Leap year (proleptic Gregorian, as `datetime`). -/
def isLeap (y : ℤ) : Bool := y % 4 = 0 && (y % 100 ≠ 0 || y % 400 = 0)

/-- Days in a month. -/
def daysInMonth (y : ℤ) (m : ℕ) : ℕ :=
  if m = 2 then (if isLeap y then 29 else 28)
  else if m = 4 || m = 6 || m = 9 || m = 11 then 30
  else 31

/-- Month-name tables for `%b` / `%B` (matched case-insensitively). -/
def monthAbbrevs : List String :=
  ["jan", "feb", "mar", "apr", "may", "jun", "jul", "aug", "sep", "oct", "nov", "dec"]

/-- Full month names for `%B`. -/
def monthFulls : List String :=
  ["january", "february", "march", "april", "may", "june", "july", "august",
   "september", "october", "november", "december"]

/-- Value of an all-digit field of the given length bounds, else `none`. -/
def digitField (lo hi : ℕ) (cs : List Char) : Option ℕ :=
  if lo ≤ cs.length && cs.length ≤ hi && cs.all Char.isDigit then
    some ((ofDigits cs).num.toNat)
  else none

/-- Month number from a `%b`/`%B` name (abbreviations first, as the format
list tries `%b` before `%B`; both give the same month when both match). -/
def monthFromName (cs : List Char) : Option ℕ :=
  let ml := String.mk (lowerList cs)
  match (monthAbbrevs.zip (List.range 12)).find? (fun p => p.1 = ml) with
  | some p => some (p.2 + 1)
  | none =>
    match (monthFulls.zip (List.range 12)).find? (fun p => p.1 = ml) with
    | some p => some (p.2 + 1)
    | none => none

/-- `%y`: two digits, 0–68 → 2000s, 69–99 → 1900s. -/
def twoDigitYear (n : ℕ) : ℤ := if n ≤ 68 then 2000 + n else 1900 + n

/-- Split on `-`. -/
def splitDash (cs : List Char) : List (List Char) :=
  (cs.splitOn '-')

/-- `datetime.strptime` against the six formats of `_extract_trans_date`,
in order (`%d-%m-%Y`, `%d-%m-%y`, `%d-%b-%Y`, `%d-%b-%y`, `%d-%B-%Y`,
`%d-%B-%y`): day 1–31 (then validated against the month length — a
`ValueError` falls through, and every remaining format fails the same
way), month numeric 1–12 or a month name, year four digits (`%Y`) or two
(`%y`). -/
def strptimeFormats (norm : List Char) : Option PyDate :=
  match splitDash norm with
  | [d, m, y] =>
    (digitField 1 2 d).bind fun dayv =>
      if dayv < 1 || 31 < dayv then none
      else
        (match digitField 1 2 m with
         | some mv => if mv < 1 || 12 < mv then none else some mv
         | none => monthFromName m).bind fun monv =>
          (match digitField 4 4 y with
           | some yv => if yv = 0 then none else some (yv : ℤ)
           | none => (digitField 2 2 y).map twoDigitYear).bind fun yearv =>
            if dayv ≤ daysInMonth yearv monv then
              some { year := yearv, month := monv, day := dayv }
            else none
  | _ => none

/-- `LocalSMSParser._extract_trans_date`. -/
def extractTransDate (cs : List Char) : Option PyDate :=
  (searchPos dateAt cs).bind fun g => strptimeFormats (normalizeDate (pyStrip g))

/-! #### `LocalSMSParser.parse` -/

/-- `schemas/sms.py` `ParsedTransaction` (pydantic value object; every
field optional, confidence defaulting to `0.0`). -/
structure ParsedTransaction where
  amount : Option ℚ := none
  transaction_type : Option TransactionType := none
  merchant : Option String := none
  account_last4 : Option String := none
  transaction_date : Option PyDate := none
  balance : Option ℚ := none
  category : Option String := none
  confidence : ℚ := 0
deriving DecidableEq, Repr

/-- The account / balance / transaction-date steps and the final
confidence assignment of `parse` (lines 91–108 of `sms_parser.py`).
Truthiness: a captured account is a non-empty 4-digit string (always
truthy); `if balance:` is false for `0.0`; a `datetime` is always truthy. -/
def finishSteps (r : ParsedTransaction) (c : ℚ) (cs : List Char) : ParsedTransaction :=
  let rc1 : ParsedTransaction × ℚ :=
    match extractAccount cs with
    | some a => ({ r with account_last4 := some a }, c + 1/10)
    | none => (r, c)
  let rc2 : ParsedTransaction × ℚ :=
    match extractBalance cs with
    | some b => if b ≠ 0 then ({ rc1.1 with balance := some b }, rc1.2 + 1/10) else rc1
    | none => rc1
  let r3 : ParsedTransaction :=
    match extractTransDate cs with
    | some d => { rc2.1 with transaction_date := some d }
    | none => rc2.1
  { r3 with confidence := min rc2.2 1 }

/-- `LocalSMSParser.parse`.  A non-string input is coerced upstream with
`str(...)` (and `None` to `""`), so the embedded input is the resulting
string.  `if amount:` is false for the float `0.0`; the `if trans_type:`
test is always true because `_extract_transaction_type` returns the
truthy enum member `UNKNOWN` instead of `None` when no verb matches.  In
the debit branch with a merchant found, the source invokes
`cls._categorize_merchant`, a method that does not exist (it is defined
as `_catogorize_merchant`): the `AttributeError` is caught only by the
whole-parse `except Exception`, so the category / account / balance /
date steps and the confidence assignment are skipped and the result keeps
the default confidence `0`. -/
def parse (message : String) : ParsedTransaction :=
  if message = "" then {} else
  let cs := message.toList
  let ml := lowerList cs
  let rca : ParsedTransaction × ℚ :=
    match extractAmount cs with
    | some a => if a ≠ 0 then ({ amount := some a }, 3/10) else ({}, 0)
    | none => ({}, 0)
  let ttype := extractTransactionType ml
  let rt : ParsedTransaction := { rca.1 with transaction_type := some ttype }
  let ct : ℚ := rca.2 + 2/10
  match ttype with
  | .debit =>
    (match extractMerchant cs with
     | some m => { rt with merchant := some m }
     | none => finishSteps rt ct cs)
  | .credit =>
    let rcs : ParsedTransaction × ℚ :=
      match extractCreditSource cs with
      | some s => if s ≠ "" then ({ rt with merchant := some s }, ct + 2/10) else (rt, ct)
      | none => (rt, ct)
    finishSteps { rcs.1 with category := some (categorizeCredit cs) } (rcs.2 + 1/10) cs
  | .unknown => finishSteps rt ct cs

end LocalSMSParser

/-! ### Data model of the analytics engine

`backend/app/core/recommendation_engine.py` imports its `SMS` record from
`app.db.models.sms`, a module not present in the source tree (only this
sibling `app/db/models.py` variant is).  The record shape is therefore
modelled from the spec and from how the engine and the SMS router read and
write it. -/

namespace Engine

open FinPal
open FinPal.LocalSMSParser (TransactionType)

/-- Modelled from the spec: the persisted `TransactionRecord` fields the
analytics engine reads (§3 of the spec; the missing `app/db/models/sms.py`
declares them, and the router writes them).  `received_at` is an integer
UNIX timestamp; `amount`, `balance`, `transaction_type`, `merchant` and
`category` are nullable columns. -/
structure SMS where
  user_id : String
  amount : Option ℚ
  transaction_type : Option TransactionType
  merchant : Option String
  category : Option String
  balance : Option ℚ
  received_at : ℤ
deriving DecidableEq, Repr

/-- `db/models/recommendation.py` `FinancialGoal` (fields the engine
reads). -/
structure FinancialGoal where
  target_amount : ℚ
  current_amount : ℚ
  deadline : Option ℤ
  is_active : Bool
deriving DecidableEq, Repr

/-- `db/models/recommendation.py` `Recommendation`, as constructed in
Python: SQLAlchemy column defaults (`status="pending"`,
`shown_at=now()`) apply at INSERT time, not at object construction, so a
freshly built recommendation carries `status = none` and
`shown_at = none`.  The generated `title`/`description` strings, the
`calculation_data` JSON blob and the uuid are not modelled (no claim
mentions them). -/
structure Recommendation where
  rectype : String
  category : Option String
  monthly_savings : ℚ
  annual_savings : ℚ
  goal_impact_percentage : Option ℚ
  confidence_score : ℚ
  priority_score : ℚ
  status : Option String := none
  shown_at : Option ℤ := none
deriving DecidableEq, Repr

/-- `timedelta.days`: floor division of the second difference by 86400. -/
def tdDays (seconds : ℤ) : ℤ := Int.fdiv seconds 86400

/-- `np.mean` (ℚ; never applied to an empty list by the engine). -/
def npMean (xs : List ℚ) : ℚ := xs.sum / xs.length

/-- Population variance (the square of `np.std`). -/
def npVariance (xs : List ℚ) : ℚ :=
  (xs.map (fun x => (x - npMean xs) ^ 2)).sum / xs.length

/-- `np.std` = square root of the variance.  The square root of a float is
modelled as an explicit parameter `sq` (no claim depends on its value);
a faithful instance satisfies `sq 0 = 0`. -/
def npStd (sq : ℚ → ℚ) (xs : List ℚ) : ℚ := sq (npVariance xs)

/-- `t.amount` after the store filter `SMS.amount.isnot(None)` (the
`getD 0` default is unreachable on query results). -/
def amt (t : SMS) : ℚ := t.amount.getD 0

/-- `FinancialRecommender._get_user_transactions`: user match, received
within the last `days` days, non-null amount. -/
def getUserTransactions (store : List SMS) (user_id : String) (now : ℤ) (days : ℤ) :
    List SMS :=
  store.filter fun t =>
    t.user_id = user_id ∧ now - days * 86400 ≤ t.received_at ∧ t.amount.isSome

/-- `t.transaction_type == TransactionType.DEBIT` (False for `None`). -/
def isDebit (t : SMS) : Bool := t.transaction_type = some TransactionType.debit

/-- `t.transaction_type == TransactionType.CREDIT`. -/
def isCredit (t : SMS) : Bool := t.transaction_type = some TransactionType.credit

/-- `t.category and t.category != 'income'` (an empty-string category is
falsy). -/
def catOk (t : SMS) : Bool :=
  match t.category with
  | some c => c ≠ "" && c ≠ "income"
  | none => false

/-- Insertion-ordered dict upsert (`d[k] = d.get(k, 0) + v`). -/
def upsertAdd (k : String) (v : ℚ) : List (String × ℚ) → List (String × ℚ)
  | [] => [(k, v)]
  | (k', v') :: rest =>
    if k' = k then (k', v' + v) :: rest else (k', v') :: upsertAdd k v rest

/-- `FinancialRecommender._categorize_spending`: debit amounts summed per
category (insertion order, as a Python dict), skipping falsy and
`'income'` categories. -/
def categorizeSpending (txns : List SMS) : List (String × ℚ) :=
  txns.foldl
    (fun acc t =>
      if isDebit t && catOk t then upsertAdd (t.category.getD "") (amt t) acc else acc)
    []

/-- `FinancialRecommender.PEER_MEDIANS`, with the `.get(category, 3000)`
default. -/
def peerMedian (category : String) : ℚ :=
  if category = "food" then 4500
  else if category = "transport" then 3000
  else if category = "shopping" then 3500
  else if category = "entertainment" then 2000
  else if category = "utilities" then 2500
  else if category = "groceries" then 6000
  else if category = "health" then 1500
  else if category = "other" then 2000
  else 3000

/-- `FinancialRecommender._calculate_confidence`.  When a category has at
least two transactions, `c_pattern = 1 - min(1, std/mean)`; with a zero
float mean that division yields `inf`/`nan`, and `min(1.0, ·)` returns
`1.0` for both, so the zero-mean case is written out explicitly. -/
def calculateConfidence (sq : ℚ → ℚ) (category : String) (transactions : List SMS) : ℚ :=
  let category_txns := transactions.filter (fun t => t.category = some category)
  if category_txns = [] then 0
  else
    let months_data : ℚ := (transactions.length : ℚ) / 30
    let c_data := min 1 (months_data / 6)
    let amounts := category_txns.map amt
    let c_pattern : ℚ :=
      if 1 < amounts.length then
        1 - (if npMean amounts = 0 then 1 else min 1 (npStd sq amounts / npMean amounts))
      else 1/2
    3/10 * c_data + 3/10 * c_pattern + 2/10 * (8/10) + 2/10 * (7/10)

/-- `FinancialRecommender._calculate_priority`. -/
def calculatePriority (savings confidence goal_impact : ℚ) : ℚ :=
  4/10 * min 1 (savings / 5000) + 3/10 * confidence + 3/10 * min 1 (goal_impact / 50)

/-- `FinancialRecommender._rank_suggestions`: `sorted(key=priority,
reverse=True)` — stable descending order. -/
def rankSuggestions (suggestions : List Recommendation) : List Recommendation :=
  suggestions.mergeSort (fun a b => b.priority_score ≤ a.priority_score)

/-- `FinancialRecommender._create_spending_suggestion` (the goal-store
read `_get_user_goals()` is the `goals` argument). -/
def createSpendingSuggestion (category : String) (monthly_savings : ℚ)
    (confidence : ℚ) (goals : List FinancialGoal) : Recommendation :=
  let annual_savings := monthly_savings * 12
  let goal_impact : ℚ :=
    match goals with
    | primary :: _ =>
      if 0 < primary.target_amount then annual_savings / primary.target_amount * 100 else 0
    | [] => 0
  { rectype := "spending_optimization"
    category := some category
    monthly_savings := monthly_savings
    annual_savings := annual_savings
    goal_impact_percentage := some goal_impact
    confidence_score := confidence
    priority_score := calculatePriority monthly_savings confidence goal_impact }

/-- The per-category loop body of `generate_spending_suggestions`. -/
def spendingLoop (sq : ℚ → ℚ) (txns : List SMS) (goals : List FinancialGoal) :
    List (String × ℚ) → List Recommendation
  | [] => []
  | (category, user_spending) :: rest =>
    let tail := spendingLoop sq txns goals rest
    let pm := peerMedian category
    if pm = 0 then tail
    else
      let excess_ratio := user_spending / pm - 1
      if 2/10 < excess_ratio then
        let savings := user_spending - pm
        let confidence := calculateConfidence sq category txns
        if 500 < savings ∧ 1/2 < confidence then
          createSpendingSuggestion category savings confidence goals :: tail
        else tail
      else tail

/-- `FinancialRecommender.generate_spending_suggestions` (thresholds
`MIN_SAVINGS_THRESHOLD = 500`, `MIN_CONFIDENCE = 0.5`,
`EXCESS_SPENDING_THRESHOLD = 0.2`). -/
def generateSpendingSuggestions (sq : ℚ → ℚ) (store : List SMS) (goals : List FinancialGoal)
    (user_id : String) (now : ℤ) : List Recommendation :=
  let transactions := getUserTransactions store user_id now 30
  if transactions = [] then []
  else
    let category_spending := categorizeSpending transactions
    if category_spending = [] then []
    else rankSuggestions (spendingLoop sq transactions goals category_spending)

/-- Insertion-ordered grouping by merchant (`subscription_merchants`
dict; `None` is a legal key). -/
def upsertGroup (k : Option String) (t : SMS) :
    List (Option String × List SMS) → List (Option String × List SMS)
  | [] => [(k, [t])]
  | (k', ts) :: rest =>
    if k' = k then (k', ts ++ [t]) :: rest else (k', ts) :: upsertGroup k t rest

/-- The grouping loop of `generate_subscription_suggestions`. -/
def groupByMerchant (txns : List SMS) : List (Option String × List SMS) :=
  txns.foldl
    (fun acc t => if isDebit t && catOk t then upsertGroup t.merchant t acc else acc)
    []

/-- `FinancialRecommender._create_subscription_suggestion` (fixed
confidence `0.9`; no goal impact; no minimum-savings check). -/
def createSubscriptionSuggestion (monthly_cost : ℚ) : Recommendation :=
  { rectype := "subscription_optimization"
    category := some "subscriptions"
    monthly_savings := monthly_cost
    annual_savings := monthly_cost * 12
    goal_impact_percentage := none
    confidence_score := 9/10
    priority_score := calculatePriority monthly_cost (9/10) 0 }

/-- The per-merchant loop of `generate_subscription_suggestions`: at
least two transactions, zero means skipped, coefficient of variation
below `0.1`, and the most recent transaction more than 30 days old. -/
def subscriptionLoop (sq : ℚ → ℚ) (now : ℤ) :
    List (Option String × List SMS) → List Recommendation
  | [] => []
  | (_, txns) :: rest =>
    let tail := subscriptionLoop sq now rest
    if 2 ≤ txns.length then
      let amounts := txns.map amt
      let mean_amount := npMean amounts
      if mean_amount = 0 then tail
      else if npStd sq amounts / mean_amount < 1/10 then
        let last_txn_date := (txns.map (·.received_at)).foldl max (txns.head?.elim 0 (·.received_at))
        let days_since_last := tdDays (now - last_txn_date)
        if 30 < days_since_last then createSubscriptionSuggestion mean_amount :: tail
        else tail
      else tail
    else tail

/-- `FinancialRecommender.generate_subscription_suggestions` (60-day
window). -/
def generateSubscriptionSuggestions (sq : ℚ → ℚ) (store : List SMS) (user_id : String)
    (now : ℤ) : List Recommendation :=
  let transactions := getUserTransactions store user_id now 60
  if transactions = [] then []
  else subscriptionLoop sq now (groupByMerchant transactions)

/-! ### Health scoring (`FinancialRecommender.calculate_health_score`) -/

/-- `FinancialRecommender._calculate_savings_score`. -/
def calculateSavingsScore (transactions : List SMS) : ℚ :=
  let income := ((transactions.filter isCredit).map amt).sum
  let expenses := ((transactions.filter isDebit).map amt).sum
  if income = 0 then 0
  else
    let actual_savings_rate := (income - expenses) / income
    max 0 (100 * min 1 (actual_savings_rate / (2/10)))

/-- `FinancialRecommender._calculate_spending_score` (discretionary =
food, entertainment, shopping). -/
def calculateSpendingScore (transactions : List SMS) : ℚ :=
  let category_spending := categorizeSpending transactions
  let discretionary :=
    (["food", "entertainment", "shopping"].map
      (fun c => ((category_spending.find? (fun kv => kv.1 = c)).map (·.2)).getD 0)).sum
  let total := (category_spending.map (·.2)).sum
  if total = 0 then 100
  else min 100 (100 * max 0 (1 - discretionary / total / (3/10)))

/-- `FinancialRecommender._calculate_daily_balances`. -/
def calculateDailyBalances (transactions : List SMS) : List ℚ :=
  let balances := (transactions.filter (·.balance.isSome)).map (fun t => t.balance.getD 0)
  if balances = [] then [0] else balances

/-- `FinancialRecommender._calculate_stability_score` (numpy float
division never raises; the zero mean is guarded in the source). -/
def calculateStabilityScore (sq : ℚ → ℚ) (transactions : List SMS) : ℚ :=
  let daily_balances := calculateDailyBalances transactions
  if daily_balances.length < 2 then 50
  else
    let mean_balance := npMean daily_balances
    if mean_balance = 0 then 0
    else max 0 (100 * (1 - min 1 (npStd sq daily_balances / mean_balance)))

/-- One goal's on-track test inside `_calculate_progress_score`.  The
division `current_amount / target_amount` is Python float division: a
zero target raises `ZeroDivisionError` (there is no guard in the source,
unlike the `target_amount > 0` check in `_create_spending_suggestion`). -/
def goalOnTrack (now : ℤ) (goal : FinancialGoal) : Except String Bool :=
  if goal.target_amount = 0 then
    Except.error "ZeroDivisionError: float division by zero"
  else
    let progress := goal.current_amount / goal.target_amount
    match goal.deadline with
    | some deadline =>
      let days_remaining := tdDays (deadline - now)
      let months_remaining : ℚ := max 1 ((days_remaining : ℚ) / 30)
      Except.ok (decide (9/10 * (1 - months_remaining / 12) ≤ progress))
    | none => Except.ok (decide (1/10 < progress))

/-- The goal loop of `_calculate_progress_score` (inactive goals are
skipped before the division). -/
def countOnTrack (now : ℤ) : List FinancialGoal → Except String ℕ
  | [] => Except.ok 0
  | g :: rest =>
    if !g.is_active then countOnTrack now rest
    else
      (goalOnTrack now g).bind fun ok =>
        (countOnTrack now rest).map fun n => (if ok then 1 else 0) + n

/-- `FinancialRecommender._calculate_progress_score`. -/
def calculateProgressScore (now : ℤ) (goals : List FinancialGoal) : Except String ℚ :=
  if goals = [] then Except.ok 50
  else (countOnTrack now goals).map fun n => 100 * ((n : ℚ) / goals.length)

/-- `round(x, 2)` (exact half-to-even at two decimals). -/
def round2 (x : ℚ) : ℚ :=
  let q := 100 * x
  let f : ℤ := ⌊q⌋
  (if q - f < 1/2 then f
   else if 1/2 < q - f then f + 1
   else if f % 2 = 0 then f else f + 1 : ℤ) / 100

/-- The five scores returned by `calculate_health_score`. -/
structure HealthScores where
  overall_score : ℚ
  savings_score : ℚ
  spending_score : ℚ
  stability_score : ℚ
  progress_score : ℚ
deriving DecidableEq, Repr

/-- `FinancialRecommender._get_user_goals` (active goals of the user; the
goal store is passed per user here since the embedded `FinancialGoal`
keeps no owner column). -/
def getUserGoals (goalStore : List FinancialGoal) : List FinancialGoal :=
  goalStore.filter (·.is_active)

/-- `FinancialRecommender.calculate_health_score`: all-zero scores for an
empty 90-day window, otherwise the four sub-scores and their weighted
combination (weights 0.30 / 0.30 / 0.25 / 0.15), each rounded to two
decimals.  An unhandled `ZeroDivisionError` from the progress score
propagates.  (The `UserFinancialProfile` upsert side effect stores the
same numbers and is not modelled separately.) -/
def calculateHealthScore (sq : ℚ → ℚ) (store : List SMS) (goalStore : List FinancialGoal)
    (user_id : String) (now : ℤ) : Except String HealthScores :=
  let transactions := getUserTransactions store user_id now 90
  if transactions = [] then
    Except.ok ⟨0, 0, 0, 0, 0⟩
  else
    let goals := getUserGoals goalStore
    let savings_score := calculateSavingsScore transactions
    let spending_score := calculateSpendingScore transactions
    let stability_score := calculateStabilityScore sq transactions
    (calculateProgressScore now goals).map fun progress_score =>
      let overall_score :=
        30/100 * savings_score + 30/100 * spending_score +
          25/100 * stability_score + 15/100 * progress_score
      ⟨round2 overall_score, round2 savings_score, round2 spending_score,
        round2 stability_score, round2 progress_score⟩

/-! ### Goal acceleration (`FinancialRecommender.accelerate_goal_suggestions`) -/

/-- `FinancialRecommender._estimate_current_savings_rate` (trailing 30
days, floored at 0). -/
def estimateCurrentSavingsRate (store : List SMS) (user_id : String) (now : ℤ) : ℚ :=
  let transactions := getUserTransactions store user_id now 30
  let income := ((transactions.filter isCredit).map amt).sum
  let expenses := ((transactions.filter isDebit).map amt).sum
  max 0 (income - expenses)

/-- The per-recommendation stamping of `accelerate_goal_suggestions`:
`status`/`shown_at` are set only when still `None`. -/
def stampRec (now : ℤ) (rec : Recommendation) : Recommendation :=
  { rec with
    status := if rec.status = none then some "pending" else rec.status
    shown_at := if rec.shown_at = none then some now else rec.shown_at }

/-- The greedy selection loop: a recommendation is taken while the
cumulative savings so far are below the shortfall. -/
def greedySelect (shortfall : ℚ) (cumulative : ℚ) :
    List Recommendation → List Recommendation
  | [] => []
  | opp :: rest =>
    if cumulative < shortfall then
      opp :: greedySelect shortfall (cumulative + opp.monthly_savings) rest
    else greedySelect shortfall cumulative rest

/-- `FinancialRecommender.accelerate_goal_suggestions`.  The collaborator
reads are explicit arguments: `goal` is the goal-store lookup result,
`opportunities` the list returned by `generate_spending_suggestions`, and
`current_rate` the value of `_estimate_current_savings_rate`.  With no
goal, no deadline or a non-positive remaining time the result is empty;
with `shortfall ≤ 0` the top three opportunities are stamped and
returned; otherwise the greedy selection is stamped and returned. -/
def accelerateGoalSuggestions (goal : Option FinancialGoal)
    (opportunities : List Recommendation) (current_rate : ℚ) (now : ℤ) :
    List Recommendation :=
  match goal with
  | none => []
  | some g =>
    match g.deadline with
    | none => []
    | some deadline =>
      let months_remaining : ℚ := (tdDays (deadline - now) : ℚ) / 30
      if months_remaining ≤ 0 then []
      else
        let required_monthly := (g.target_amount - g.current_amount) / months_remaining
        let shortfall := required_monthly - current_rate
        if shortfall ≤ 0 then
          (opportunities.take 3).map (stampRec now)
        else
          (greedySelect shortfall 0 opportunities).map (stampRec now)

end Engine

/-! ### SMS router (`backend/app/api/v0/routers/sms.py`) -/

namespace SmsRouter

open FinPal

/-- A background task handed to `BackgroundTasks.add_task`. -/
inductive BgTask
  | enqueueRemoteParse (message : String)
deriving DecidableEq, Repr

/-- The post-parse escalation decision of `ingest_sms` (lines 71–74): the
low-confidence / forced branch only logs — the
`background_tasks.add_task(enqueue_remote_parse, sms, request.message)`
call in its body is commented out in the source, so no task is ever
enqueued. -/
def ingestEscalation (confidence : ℚ) (force_remote_parse : Bool) :
    List String × List BgTask :=
  if confidence < 7/10 ∨ force_remote_parse then
    (["Low confidence,enqueuing for remote parse"], [])
  else ([], [])

/-- `schemas/sms.py` `PennyWiseCallback`: the success field is declared
`succes` (sic). -/
structure PennyWiseCallback where
  sms_id : String
  succes : Bool
  parsed_data : Option (List (String × String)) := none
  error : Option String := none
deriving DecidableEq, Repr

/-- Python attribute access `callback.<name>` on the pydantic model: only
the declared fields resolve; any other name raises `AttributeError`.  The
handler reads `callback.success`, which is not among the declared
fields. -/
def callbackGetSuccess (cb : PennyWiseCallback) : Except String Bool :=
  if ("success" : String) = "succes" then Except.ok cb.succes
  else Except.error "AttributeError: 'PennyWiseCallback' object has no attribute 'success'"

/-- The observable outcome of `pennywise_callback` on an existing record:
either the updated (status, error-message) pair committed to the store,
or an exception escaping the handler before any commit. -/
def pennywiseCallback (cb : PennyWiseCallback) : Except String (String × Option String) :=
  (callbackGetSuccess cb).map fun success =>
    if success && cb.parsed_data.isSome then
      ("parsed", none)
    else
      ("failed", some (cb.error.getD "Remote parsing failed"))

end SmsRouter

/-! ### Claim theorems -/

-- Batteries marks the `Rat` arithmetic `@[irreducible]`, which blocks
-- `decide`'s elaborator-side evaluation; restore the default
-- transparency for this file's ground evaluations.
attribute [local semireducible] Rat.add Rat.mul Rat.inv Rat.sub

/-- The message of the C1 scenario. -/
def c1msg : String :=
  "Rs.1,250 debited from A/C XX1234 at SWIGGY on 12-01-2024. Avbl Bal Rs.5,000"

/-- C1: the claim says the scenario message parses to amount 1250,
debit, merchant SWIGGY, account "1234", balance 5000, category "food",
confidence ≥ 0.8.  In the code, after amount, direction and merchant are
extracted, `parse` calls the non-existent `cls._categorize_merchant`
(defined as `_catogorize_merchant`); the `AttributeError` is swallowed by
the whole-parse handler, so the returned transaction has no account, no
balance, no category and the default confidence 0 — while the
(unreachable) categorizer would indeed map SWIGGY to "food". -/
theorem C1_scenario_parse_aborted :
    LocalSMSParser.parse c1msg =
      { amount := some 1250
        transaction_type := some LocalSMSParser.TransactionType.debit
        merchant := some "SWIGGY"
        confidence := 0 } ∧
    LocalSMSParser.catogorizeMerchant "SWIGGY" = "food" := by
  constructor
  · decide
  · decide

/-- C2: the claim says an exception in one sub-extraction (e.g. merchant
categorization) is caught at that sub-step, so account, balance and date
are still extracted and the confidence still assigned.  In the code the
categorization `AttributeError` is caught only by the whole-parse
handler: on the C1 message the account ("1234"), balance (5000) and date
(12 Jan 2024) extractors all succeed in isolation, yet the returned
transaction carries none of them and keeps confidence 0. -/
theorem C2_later_steps_skipped :
    LocalSMSParser.extractAccount c1msg.toList = some "1234" ∧
    LocalSMSParser.extractBalance c1msg.toList = some 5000 ∧
    LocalSMSParser.extractTransDate c1msg.toList = some ⟨2024, 1, 12⟩ ∧
    (LocalSMSParser.parse c1msg).account_last4 = none ∧
    (LocalSMSParser.parse c1msg).balance = none ∧
    (LocalSMSParser.parse c1msg).transaction_date = none ∧
    (LocalSMSParser.parse c1msg).confidence = 0 := by
  refine ⟨by decide, by decide, by decide, ?_, ?_, ?_, ?_⟩ <;> decide

/-- C3: the claim says an asynchronous remote-parse escalation request is
emitted iff confidence < 0.7 or the force flag is set.  In `ingest_sms`
the low-confidence branch is taken (it logs), but the
`background_tasks.add_task(enqueue_remote_parse, …)` call inside it is
commented out, so no escalation request is ever emitted — in particular
not at confidence 0.5 with the force flag clear. -/
theorem C3_no_escalation_emitted :
    (∀ confidence : ℚ, ∀ force : Bool,
      (SmsRouter.ingestEscalation confidence force).2 = []) ∧
    (SmsRouter.ingestEscalation (1/2) false).1 =
      ["Low confidence,enqueuing for remote parse"] := by
  constructor
  · intro confidence force
    unfold SmsRouter.ingestEscalation
    split <;> rfl
  · decide

/-- C4: the claim says a remote-parser callback either overwrites the
parsed fields and marks the record `parsed`, or marks it `failed` with
the supplied / default error.  The handler first reads
`callback.success`, but the pydantic schema declares the field as
`succes`, so every callback raises `AttributeError` before either branch
can run. -/
theorem C4_callback_attribute_error :
    ∀ cb : SmsRouter.PennyWiseCallback,
      SmsRouter.pennywiseCallback cb =
        Except.error
          "AttributeError: 'PennyWiseCallback' object has no attribute 'success'" := by
  intro cb
  rfl

/-! #### Helper lemmas about `finishSteps` (shared by several claims) -/

theorem finishSteps_ttype (r : LocalSMSParser.ParsedTransaction) (c : ℚ) (cs : List Char) :
    (LocalSMSParser.finishSteps r c cs).transaction_type = r.transaction_type := by
  unfold LocalSMSParser.finishSteps
  cases LocalSMSParser.extractAccount cs <;>
    cases LocalSMSParser.extractBalance cs <;>
      cases LocalSMSParser.extractTransDate cs <;>
        simp <;> split <;> rfl

theorem finishSteps_confidence_lb (r : LocalSMSParser.ParsedTransaction) (c : ℚ)
    (cs : List Char) (q : ℚ) (hqc : q ≤ c) (hq1 : q ≤ 1) :
    q ≤ (LocalSMSParser.finishSteps r c cs).confidence := by
  unfold LocalSMSParser.finishSteps
  cases LocalSMSParser.extractAccount cs <;>
    cases LocalSMSParser.extractBalance cs <;>
      cases LocalSMSParser.extractTransDate cs <;>
        simp <;> (try split) <;>
          (try constructor) <;> linarith

theorem finishSteps_confidence_ub (r : LocalSMSParser.ParsedTransaction) (c : ℚ)
    (cs : List Char) : (LocalSMSParser.finishSteps r c cs).confidence ≤ 1 := by
  unfold LocalSMSParser.finishSteps
  cases LocalSMSParser.extractAccount cs <;>
    cases LocalSMSParser.extractBalance cs <;>
      cases LocalSMSParser.extractTransDate cs <;> simp

/-- C6 counterexample: the message "foo" contains no debit- and no
credit-indicating verb, yet `parse` returns direction `unknown` with
confidence 0.2 — the direction weight was added although no verb
matched, refuting "contributes 0 to the confidence". -/
theorem C6_counterexample_unknown_gets_weight :
    FinPal.hasAnySub LocalSMSParser.debitKws (FinPal.lowerList "foo".toList) = false ∧
    FinPal.hasAnySub LocalSMSParser.creditKws (FinPal.lowerList "foo".toList) = false ∧
    LocalSMSParser.parse "foo" =
      { transaction_type := some LocalSMSParser.TransactionType.unknown
        confidence := 1/5 } := by
  refine ⟨by decide, by decide, by decide⟩

/-- C6 amended: `_extract_transaction_type` returns the truthy enum
member `UNKNOWN` (not `None`) when neither verb family matches, so the
`if trans_type:` check always passes: for every non-empty message
matching neither family the direction defaults to unknown *and* the 0.2
direction weight is still added (confidence ≥ 0.2 instead of a 0
contribution). -/
theorem C6_amended_direction_weight_always_added (message : String)
    (hne : message ≠ "")
    (hdeb : FinPal.hasAnySub LocalSMSParser.debitKws (FinPal.lowerList message.toList) = false)
    (hcred : FinPal.hasAnySub LocalSMSParser.creditKws (FinPal.lowerList message.toList) = false) :
    (LocalSMSParser.parse message).transaction_type =
      some LocalSMSParser.TransactionType.unknown ∧
    1/5 ≤ (LocalSMSParser.parse message).confidence := by
  have ht : LocalSMSParser.extractTransactionType (FinPal.lowerList message.toList) =
      LocalSMSParser.TransactionType.unknown := by
    unfold LocalSMSParser.extractTransactionType
    rw [hdeb, hcred]
    rfl
  unfold LocalSMSParser.parse
  rw [if_neg hne]
  dsimp only
  rw [ht]
  cases hA : LocalSMSParser.extractAmount message.toList with
  | none =>
    dsimp only
    exact ⟨by rw [finishSteps_ttype], finishSteps_confidence_lb _ _ _ _ (by norm_num) (by norm_num)⟩
  | some a =>
    dsimp only
    by_cases ha : a = 0
    · rw [if_neg (by simpa using ha)]
      exact ⟨by rw [finishSteps_ttype], finishSteps_confidence_lb _ _ _ _ (by norm_num) (by norm_num)⟩
    · rw [if_pos (by simpa using ha)]
      exact ⟨by rw [finishSteps_ttype], finishSteps_confidence_lb _ _ _ _ (by norm_num) (by norm_num)⟩

/-- C6 amended witness at the message "foo". -/
theorem C6_amended_direction_weight_always_added_witness :
    (LocalSMSParser.parse "foo").transaction_type =
      some LocalSMSParser.TransactionType.unknown ∧
    1/5 ≤ (LocalSMSParser.parse "foo").confidence :=
  C6_amended_direction_weight_always_added "foo" (by decide) (by decide) (by decide)

/-- C10: for every input to `parse` (a non-string input being coerced
upstream to a string, `None` to `""`, and internal exceptions landing in
the whole-parse handler that keeps the default confidence 0), the
returned confidence lies in [0, 1]. -/
theorem C10_confidence_in_unit_interval (message : String) :
    0 ≤ (LocalSMSParser.parse message).confidence ∧
      (LocalSMSParser.parse message).confidence ≤ 1 := by
  unfold LocalSMSParser.parse
  by_cases hm : message = ""
  · rw [if_pos hm]
    exact ⟨le_refl 0, by norm_num⟩
  · rw [if_neg hm]
    dsimp only
    have hbound : ∀ (r : LocalSMSParser.ParsedTransaction) (c : ℚ), 0 ≤ c →
        0 ≤ (LocalSMSParser.finishSteps r c message.toList).confidence ∧
          (LocalSMSParser.finishSteps r c message.toList).confidence ≤ 1 := by
      intro r c hc
      exact ⟨finishSteps_confidence_lb r c _ 0 hc (by norm_num),
        finishSteps_confidence_ub r c _⟩
    cases hA : LocalSMSParser.extractAmount message.toList with
    | none =>
      dsimp only
      cases LocalSMSParser.extractTransactionType (FinPal.lowerList message.toList) with
      | debit =>
        cases LocalSMSParser.extractMerchant message.toList with
        | none => exact hbound _ _ (by norm_num)
        | some m => exact ⟨le_refl 0, by norm_num⟩
      | credit =>
        cases LocalSMSParser.extractCreditSource message.toList with
        | none => exact hbound _ _ (by norm_num)
        | some s =>
          dsimp only
          by_cases hs : s = ""
          · rw [if_neg (by simpa using hs)]
            exact hbound _ _ (by norm_num)
          · rw [if_pos (by simpa using hs)]
            exact hbound _ _ (by norm_num)
      | unknown => exact hbound _ _ (by norm_num)
    | some a =>
      dsimp only
      by_cases ha : a = 0
      · rw [if_neg (by simpa using ha)]
        dsimp only
        cases LocalSMSParser.extractTransactionType (FinPal.lowerList message.toList) with
        | debit =>
          cases LocalSMSParser.extractMerchant message.toList with
          | none => exact hbound _ _ (by norm_num)
          | some m => exact ⟨le_refl 0, by norm_num⟩
        | credit =>
          cases LocalSMSParser.extractCreditSource message.toList with
          | none => exact hbound _ _ (by norm_num)
          | some s =>
            dsimp only
            by_cases hs : s = ""
            · rw [if_neg (by simpa using hs)]
              exact hbound _ _ (by norm_num)
            · rw [if_pos (by simpa using hs)]
              exact hbound _ _ (by norm_num)
        | unknown => exact hbound _ _ (by norm_num)
      · rw [if_pos (by simpa using ha)]
        dsimp only
        cases LocalSMSParser.extractTransactionType (FinPal.lowerList message.toList) with
        | debit =>
          cases LocalSMSParser.extractMerchant message.toList with
          | none => exact hbound _ _ (by norm_num)
          | some m => exact ⟨le_refl 0, by norm_num⟩
        | credit =>
          cases LocalSMSParser.extractCreditSource message.toList with
          | none => exact hbound _ _ (by norm_num)
          | some s =>
            dsimp only
            by_cases hs : s = ""
            · rw [if_neg (by simpa using hs)]
              exact hbound _ _ (by norm_num)
            · rw [if_pos (by simpa using hs)]
              exact hbound _ _ (by norm_num)
        | unknown => exact hbound _ _ (by norm_num)

/-- C8: when the computed shortfall is ≤ 0 (goal found, deadline set,
positive months remaining), `accelerate_goal_suggestions` returns the
stamped top-3 opportunities: at most three recommendations, a
recommendation that already carried a `shown_at` timestamp keeps it
unchanged, and only a recommendation without one is stamped with the
current time. -/
theorem C8_on_track_top3_preserves_shown (g : Engine.FinancialGoal)
    (opportunities : List Engine.Recommendation) (current_rate : ℚ) (now dl : ℤ)
    (hd : g.deadline = some dl)
    (hm : 0 < ((Engine.tdDays (dl - now) : ℤ) : ℚ) / 30)
    (hs : (g.target_amount - g.current_amount) / (((Engine.tdDays (dl - now) : ℤ) : ℚ) / 30)
        - current_rate ≤ 0) :
    Engine.accelerateGoalSuggestions (some g) opportunities current_rate now =
      (opportunities.take 3).map (Engine.stampRec now) ∧
    (Engine.accelerateGoalSuggestions (some g) opportunities current_rate now).length ≤ 3 ∧
    ∀ r ∈ opportunities.take 3,
      (r.shown_at ≠ none → (Engine.stampRec now r).shown_at = r.shown_at) ∧
      (r.shown_at = none → (Engine.stampRec now r).shown_at = some now) := by
  have heq : Engine.accelerateGoalSuggestions (some g) opportunities current_rate now =
      (opportunities.take 3).map (Engine.stampRec now) := by
    unfold Engine.accelerateGoalSuggestions
    dsimp only
    rw [hd]
    dsimp only
    rw [if_neg (not_le.mpr hm), if_pos hs]
  refine ⟨heq, ?_, ?_⟩
  · rw [heq, List.length_map, List.length_take]
    exact min_le_left 3 _
  · intro r _
    unfold Engine.stampRec
    constructor
    · intro hne
      simp [hne]
    · intro he
      simp [he]

/-- Concrete goal for the C8 witness: target 1000, saved 900, deadline
300 days out (seconds), active. -/
def c8goal : Engine.FinancialGoal := ⟨1000, 900, some 25920000, true⟩

/-- Concrete opportunity for the C8 witness, already shown at time 5. -/
def c8opp : Engine.Recommendation :=
  ⟨"spending_optimization", some "food", 1500, 18000, some 0, 3/4, 1/2, none, some 5⟩

/-- C8 witness: at `now = 0` the goal needs 10 months × 10/month against
a current savings rate of 50 (shortfall −40 ≤ 0); the single opportunity
keeps its pre-existing `shown_at = 5`. -/
theorem C8_on_track_top3_preserves_shown_witness :
    Engine.accelerateGoalSuggestions (some c8goal) [c8opp] 50 0 =
      ([c8opp].take 3).map (Engine.stampRec 0) ∧
    (Engine.accelerateGoalSuggestions (some c8goal) [c8opp] 50 0).length ≤ 3 ∧
    ∀ r ∈ [c8opp].take 3,
      (r.shown_at ≠ none → (Engine.stampRec 0 r).shown_at = r.shown_at) ∧
      (r.shown_at = none → (Engine.stampRec 0 r).shown_at = some 0) :=
  C8_on_track_top3_preserves_shown c8goal [c8opp] 50 0 25920000 rfl (by decide) (by decide)

/-- An active goal with a zero target errors inside the goal loop. -/
theorem countOnTrack_error (now : ℤ) (gs : List Engine.FinancialGoal)
    (hg : ∃ g ∈ gs, g.is_active = true ∧ g.target_amount = 0) :
    ∃ e, Engine.countOnTrack now gs = Except.error e := by
  induction gs with
  | nil => simp at hg
  | cons g rest ih =>
    obtain ⟨g', hmem, hact, htgt⟩ := hg
    unfold Engine.countOnTrack
    rcases List.mem_cons.mp hmem with h | h
    · subst h
      rw [if_neg (by simp [hact])]
      unfold Engine.goalOnTrack
      rw [if_pos htgt]
      exact ⟨_, rfl⟩
    · by_cases ha : g.is_active
      · rw [if_neg (by simp [ha])]
        obtain ⟨e, he⟩ := ih ⟨g', h, hact, htgt⟩
        cases hgo : Engine.goalOnTrack now g with
        | error e' => exact ⟨e', rfl⟩
        | ok b =>
          refine ⟨e, ?_⟩
          simp [Except.bind, he, Except.map]
      · rw [if_pos (by simp [ha])]
        exact ih ⟨g', h, hact, htgt⟩

/-- C9 amended: the guards named by the claim do hold — zero total income
gives savings score 0, zero categorized spend gives spending score 100,
and an empty 90-day window returns all-zero scores — but "never divides
by zero" fails: the goal-progress sub-score divides by each active
goal's target amount with no zero guard, so a non-empty window together
with an active zero-target goal makes `calculate_health_score` raise
`ZeroDivisionError`. -/
theorem C9_amended_division_guards :
    (∀ txns : List Engine.SMS,
      ((txns.filter Engine.isCredit).map Engine.amt).sum = 0 →
        Engine.calculateSavingsScore txns = 0) ∧
    (∀ txns : List Engine.SMS,
      ((Engine.categorizeSpending txns).map (·.2)).sum = 0 →
        Engine.calculateSpendingScore txns = 100) ∧
    (∀ (sq : ℚ → ℚ) (store : List Engine.SMS) (goalStore : List Engine.FinancialGoal)
        (uid : String) (now : ℤ),
      Engine.getUserTransactions store uid now 90 = [] →
        Engine.calculateHealthScore sq store goalStore uid now = Except.ok ⟨0, 0, 0, 0, 0⟩) ∧
    (∀ (sq : ℚ → ℚ) (store : List Engine.SMS) (goalStore : List Engine.FinancialGoal)
        (uid : String) (now : ℤ),
      (∃ g ∈ Engine.getUserGoals goalStore, g.target_amount = 0) →
        Engine.getUserTransactions store uid now 90 ≠ [] →
          ∃ e, Engine.calculateHealthScore sq store goalStore uid now = Except.error e) := by
  refine ⟨?_, ?_, ?_, ?_⟩
  · intro txns h
    unfold Engine.calculateSavingsScore
    rw [h]
    simp
  · intro txns h
    unfold Engine.calculateSpendingScore
    dsimp only
    rw [h]
    simp
  · intro sq store goalStore uid now h
    unfold Engine.calculateHealthScore
    rw [h]
    rfl
  · intro sq store goalStore uid now hg hne
    obtain ⟨g, hmem, htgt⟩ := hg
    have hact : g.is_active = true := by
      have := List.mem_filter.mp hmem
      simpa using this.2
    have hgs : Engine.getUserGoals goalStore ≠ [] := by
      intro hnil
      rw [hnil] at hmem
      simp at hmem
    obtain ⟨e, he⟩ := countOnTrack_error now (Engine.getUserGoals goalStore) ⟨g, hmem, hact, htgt⟩
    refine ⟨e, ?_⟩
    unfold Engine.calculateHealthScore
    rw [if_neg hne]
    unfold Engine.calculateProgressScore
    dsimp only
    rw [if_neg hgs, he]
    rfl

/-- Concrete parts for the C9 theorems: a square root, one debit
transaction and one active zero-target goal. -/
def sqZero : ℚ → ℚ := fun _ => 0

/-- A debit transaction of the C9 counterexample (user "u", time 0). -/
def c9txn : Engine.SMS := ⟨"u", some 100, some LocalSMSParser.TransactionType.debit, none, none, none, 0⟩

/-- The zero-target active goal of the C9 counterexample. -/
def c9goal : Engine.FinancialGoal := ⟨0, 0, none, true⟩

/-- C9 counterexample: with one transaction in the window and one active
zero-target goal, health scoring divides by zero — the claim's headline
"health scoring never divides by zero" is false on the code. -/
theorem C9_counterexample_zero_target_divides :
    Engine.calculateHealthScore sqZero [c9txn] [c9goal] "u" 0 =
      Except.error "ZeroDivisionError: float division by zero" := by
  rfl

/-- C9 amended witness: the three guards evaluated at concrete inputs
(the counterexample instantiates the fourth conjunct separately). -/
theorem C9_amended_division_guards_witness :
    Engine.calculateSavingsScore [c9txn] = 0 ∧
    Engine.calculateSpendingScore [c9txn] = 100 ∧
    Engine.calculateHealthScore sqZero [] [c9goal] "u" 0 = Except.ok ⟨0, 0, 0, 0, 0⟩ ∧
    ∃ e, Engine.calculateHealthScore sqZero [c9txn] [c9goal] "u" 0 = Except.error e :=
  ⟨C9_amended_division_guards.1 [c9txn] (by decide),
   C9_amended_division_guards.2.1 [c9txn] (by decide),
   C9_amended_division_guards.2.2.1 sqZero [] [c9goal] "u" 0 (by decide),
   C9_amended_division_guards.2.2.2 sqZero [c9txn] [c9goal] "u" 0
     ⟨c9goal, by decide, by decide⟩ (by decide)⟩

/-- Every recommendation the spending loop keeps passed its
`savings > 500 ∧ confidence > 0.5` guard. -/
theorem spendingLoop_mem (sq : ℚ → ℚ) (txns : List Engine.SMS)
    (goals : List Engine.FinancialGoal) (l : List (String × ℚ))
    (r : Engine.Recommendation) (hr : r ∈ Engine.spendingLoop sq txns goals l) :
    500 < r.monthly_savings ∧ 1/2 < r.confidence_score := by
  induction l with
  | nil => simp [Engine.spendingLoop] at hr
  | cons kv rest ih =>
    obtain ⟨category, user_spending⟩ := kv
    unfold Engine.spendingLoop at hr
    dsimp only at hr
    by_cases h0 : Engine.peerMedian category = 0
    · rw [if_pos h0] at hr
      exact ih hr
    · rw [if_neg h0] at hr
      by_cases hex : 2/10 < user_spending / Engine.peerMedian category - 1
      · rw [if_pos hex] at hr
        by_cases hg : 500 < user_spending - Engine.peerMedian category ∧
            1/2 < Engine.calculateConfidence sq category txns
        · rw [if_pos hg] at hr
          rcases List.mem_cons.mp hr with h | h
          · subst h
            exact ⟨hg.1, hg.2⟩
          · exact ih h
        · rw [if_neg hg] at hr
          exact ih hr
      · rw [if_neg hex] at hr
        exact ih hr

/-- Every recommendation the subscription loop keeps is a
`createSubscriptionSuggestion` (fixed confidence 0.9). -/
theorem subscriptionLoop_mem (sq : ℚ → ℚ) (now : ℤ)
    (l : List (Option String × List Engine.SMS)) (r : Engine.Recommendation)
    (hr : r ∈ Engine.subscriptionLoop sq now l) : r.confidence_score = 9/10 := by
  induction l with
  | nil => simp [Engine.subscriptionLoop] at hr
  | cons kv rest ih =>
    obtain ⟨k, txns⟩ := kv
    unfold Engine.subscriptionLoop at hr
    dsimp only at hr
    by_cases h2 : 2 ≤ txns.length
    · rw [if_pos h2] at hr
      by_cases hm : Engine.npMean (txns.map Engine.amt) = 0
      · rw [if_pos hm] at hr
        exact ih hr
      · rw [if_neg hm] at hr
        by_cases hcv : Engine.npStd sq (txns.map Engine.amt) /
            Engine.npMean (txns.map Engine.amt) < 1/10
        · rw [if_pos hcv] at hr
          by_cases hd : 30 < Engine.tdDays
              (now - (txns.map (·.received_at)).foldl max (txns.head?.elim 0 (·.received_at)))
          · rw [if_pos hd] at hr
            rcases List.mem_cons.mp hr with h | h
            · subst h
              rfl
            · exact ih h
          · rw [if_neg hd] at hr
            exact ih hr
        · rw [if_neg hcv] at hr
          exact ih hr
    · rw [if_neg h2] at hr
      exact ih hr

/-- C5 amended: the spending-optimization generator never emits a
recommendation with monthly savings ≤ 500 or confidence ≤ 0.5 (its guard
is strict on both), but the subscription-optimization generator applies
no minimum-savings threshold at all: every subscription recommendation
carries the fixed confidence 0.9 (> 0.5) while its monthly savings — the
mean subscription cost — can be arbitrarily small. -/
theorem C5_amended_thresholds :
    (∀ (sq : ℚ → ℚ) (store : List Engine.SMS) (goals : List Engine.FinancialGoal)
        (uid : String) (now : ℤ) (r : Engine.Recommendation),
      r ∈ Engine.generateSpendingSuggestions sq store goals uid now →
        500 < r.monthly_savings ∧ 1/2 < r.confidence_score) ∧
    (∀ (sq : ℚ → ℚ) (store : List Engine.SMS) (uid : String) (now : ℤ)
        (r : Engine.Recommendation),
      r ∈ Engine.generateSubscriptionSuggestions sq store uid now →
        r.confidence_score = 9/10) := by
  constructor
  · intro sq store goals uid now r hr
    unfold Engine.generateSpendingSuggestions at hr
    by_cases h1 : Engine.getUserTransactions store uid now 30 = []
    · rw [if_pos h1] at hr
      simp at hr
    · rw [if_neg h1] at hr
      dsimp only at hr
      by_cases h2 : Engine.categorizeSpending (Engine.getUserTransactions store uid now 30) = []
      · rw [if_pos h2] at hr
        simp at hr
      · rw [if_neg h2] at hr
        unfold Engine.rankSuggestions at hr
        rw [List.mem_mergeSort] at hr
        exact spendingLoop_mem _ _ _ _ _ hr
  · intro sq store uid now r hr
    unfold Engine.generateSubscriptionSuggestions at hr
    by_cases h1 : Engine.getUserTransactions store uid now 60 = []
    · rw [if_pos h1] at hr
      simp at hr
    · rw [if_neg h1] at hr
      exact subscriptionLoop_mem _ _ _ _ hr

/-- Two ₹100 charges by the same merchant, 55 and 35 days old. -/
def gymTxn1 : Engine.SMS :=
  ⟨"u", some 100, some LocalSMSParser.TransactionType.debit, some "GYM", some "health",
    none, -4752000⟩

/-- The later ₹100 charge (35 days before `now = 0`). -/
def gymTxn2 : Engine.SMS :=
  ⟨"u", some 100, some LocalSMSParser.TransactionType.debit, some "GYM", some "health",
    none, -3024000⟩

/-- C5 counterexample: the subscription generator emits a recommendation
whose monthly savings estimate is 100 — below the minimum-savings
threshold 500 — refuting the claim that recommendation generation never
emits such a suggestion. -/
theorem C5_counterexample_subscription_below_threshold :
    (Engine.generateSubscriptionSuggestions sqZero [gymTxn1, gymTxn2] "u" 0).map
        (·.monthly_savings) = [100] ∧
    (100 : ℚ) < 500 := by
  exact ⟨by rfl, by norm_num⟩

/-- The single spending transaction of the C5 witness store (₹6000 of
food against the ₹4500 peer median). -/
def c5foodTxn : Engine.SMS :=
  ⟨"u", some 6000, some LocalSMSParser.TransactionType.debit, some "FOODPLACE", some "food",
    none, 0⟩

/-- Credit filler transactions raising the data-volume confidence factor. -/
def c5creditTxn : Engine.SMS :=
  ⟨"u", some 1, some LocalSMSParser.TransactionType.credit, none, none, none, 0⟩

/-- The 31-transaction store of the C5 witness. -/
def c5store : List Engine.SMS := c5foodTxn :: List.replicate 30 c5creditTxn

/-- The recommendation the spending generator emits on `c5store`. -/
def c5rec : Engine.Recommendation :=
  Engine.createSpendingSuggestion "food" 1500
    (Engine.calculateConfidence sqZero "food" (Engine.getUserTransactions c5store "u" 0 30)) []

/-- C5 amended witness: a concrete emitted spending recommendation
(savings 1500, confidence 301/600) and a concrete emitted subscription
recommendation (confidence 0.9). -/
theorem C5_amended_thresholds_witness :
    (500 < c5rec.monthly_savings ∧ 1/2 < c5rec.confidence_score) ∧
    (Engine.createSubscriptionSuggestion 100).confidence_score = 9/10 :=
  ⟨C5_amended_thresholds.1 sqZero c5store [] "u" 0 c5rec
      (by
        have h : Engine.generateSpendingSuggestions sqZero c5store [] "u" 0 = [c5rec] := by
          unfold Engine.generateSpendingSuggestions
          rw [if_neg (by decide), if_neg (by decide)]
          unfold Engine.rankSuggestions
          rw [show Engine.spendingLoop sqZero (Engine.getUserTransactions c5store "u" 0 30) []
                (Engine.categorizeSpending (Engine.getUserTransactions c5store "u" 0 30)) =
              [c5rec] by decide]
          exact List.mergeSort_singleton c5rec
        rw [h]
        exact List.mem_singleton_self _),
   C5_amended_thresholds.2 sqZero [gymTxn1, gymTxn2] "u" 0
      (Engine.createSubscriptionSuggestion 100)
      (by
        have h : Engine.generateSubscriptionSuggestions sqZero [gymTxn1, gymTxn2] "u" 0 =
            [Engine.createSubscriptionSuggestion 100] := by rfl
        rw [h]
        exact List.mem_singleton_self _)⟩

/-- `timedelta.days` of at most 25 days' worth of seconds is at most
25. -/
theorem tdDays_le_25 {x : ℤ} (h : x ≤ 2160000) : Engine.tdDays x ≤ 25 := by
  unfold Engine.tdDays
  rw [Int.fdiv_eq_ediv _ (by norm_num)]
  omega

/-- The subscription loop emits nothing for a single merchant group whose
most recent charge is not stale. -/
theorem subscriptionLoop_single_fresh (sq : ℚ → ℚ) (now : ℤ) (k : Option String)
    (ts : List Engine.SMS)
    (hstale : ¬ 30 < Engine.tdDays
      (now - (ts.map (·.received_at)).foldl max (ts.head?.elim 0 (·.received_at)))) :
    Engine.subscriptionLoop sq now [(k, ts)] = [] := by
  unfold Engine.subscriptionLoop
  dsimp only
  by_cases h2 : 2 ≤ ts.length
  · rw [if_pos h2]
    by_cases hm : Engine.npMean (ts.map Engine.amt) = 0
    · rw [if_pos hm]
      rfl
    · rw [if_neg hm]
      by_cases hcv : Engine.npStd sq (ts.map Engine.amt) / Engine.npMean (ts.map Engine.amt)
          < 1/10
      · rw [if_pos hcv, if_neg hstale]
        rfl
      · rw [if_neg hcv]
        rfl
  · rw [if_neg h2]
    rfl

/-- One transaction of the C7 pair: a ₹499 debit to merchant `m` with
category `cat` at time `t`. -/
def c7txn (uid m cat : String) (t : ℤ) : Engine.SMS :=
  ⟨uid, some 499, some LocalSMSParser.TransactionType.debit, some m, some cat, none, t⟩

/-- C7 amended: a pair of equal ₹499 debits to the same merchant, 35 days
apart and both inside the 60-day window, is a subscription candidate by
amounts, but its later transaction is at most 25 days old, so the
"unused" test (`more than 30 days since the last charge`) always fails
and no cancellation recommendation is emitted. -/
theorem C7_amended_pair_never_stale (sq : ℚ → ℚ) (uid m cat : String) (r1 now : ℤ)
    (hc1 : cat ≠ "") (hc2 : cat ≠ "income") (hwin : now - 60 * 86400 ≤ r1) :
    Engine.generateSubscriptionSuggestions sq
      [c7txn uid m cat r1, c7txn uid m cat (r1 + 35 * 86400)] uid now = [] := by
  have hw1 : now ≤ r1 + 5184000 := by omega
  have hw2 : now ≤ r1 + 3024000 + 5184000 := by omega
  have hflt : Engine.getUserTransactions
      [c7txn uid m cat r1, c7txn uid m cat (r1 + 35 * 86400)] uid now 60 =
      [c7txn uid m cat r1, c7txn uid m cat (r1 + 35 * 86400)] := by
    unfold Engine.getUserTransactions c7txn
    simp [List.filter, hw1, hw2]
  have hgrp : Engine.groupByMerchant
      [c7txn uid m cat r1, c7txn uid m cat (r1 + 35 * 86400)] =
      [(some m, [c7txn uid m cat r1, c7txn uid m cat (r1 + 35 * 86400)])] := by
    unfold Engine.groupByMerchant Engine.isDebit Engine.catOk c7txn
    simp [Engine.upsertGroup, hc1, hc2]
  unfold Engine.generateSubscriptionSuggestions
  rw [hflt, if_neg (by simp), hgrp]
  apply subscriptionLoop_single_fresh
  have hlast : ([c7txn uid m cat r1, c7txn uid m cat (r1 + 35 * 86400)].map
        (·.received_at)).foldl max
      ([c7txn uid m cat r1, c7txn uid m cat (r1 + 35 * 86400)].head?.elim 0
        (·.received_at)) = r1 + 35 * 86400 := by
    simp [c7txn]
  rw [hlast]
  have h25 : Engine.tdDays (now - (r1 + 35 * 86400)) ≤ 25 :=
    tdDays_le_25 (by omega)
  omega

/-- C7 counterexample: the concrete pair of the claim's scenario — ₹499
to NETFLIX 60 and 25 days ago (35 days apart, coefficient of variation
0) — produces no subscription recommendation at all, refuting the claim
that the pair is flagged unused and a cancellation is emitted. -/
theorem C7_counterexample_pair_not_flagged :
    Engine.generateSubscriptionSuggestions sqZero
      [c7txn "u" "NETFLIX" "entertainment" (-5184000),
       c7txn "u" "NETFLIX" "entertainment" (-2160000)] "u" 0 = [] := by
  decide

/-- C7 amended witness at the counterexample instance. -/
theorem C7_amended_pair_never_stale_witness :
    Engine.generateSubscriptionSuggestions sqZero
      [c7txn "u" "NETFLIX" "entertainment" (-5184000),
       c7txn "u" "NETFLIX" "entertainment" (-5184000 + 35 * 86400)] "u" 0 = [] :=
  C7_amended_pair_never_stale sqZero "u" "NETFLIX" "entertainment" (-5184000) 0
    (by decide) (by decide) (by decide)

end FinPal
